import Mathlib

/-!
Verification of the soundstream loopback demo (`src/examples/soundstream.rs`).

The Rust file defines two cooperating structs:

* `App` — the foreground game object, holding the sending half of a
  `channel::<bool>()` in `kill_chan : Option<Sender<bool>>`; its `Drop`
  impl sends `true` through the channel.
* `AppSoundStream` — the audio-thread object, holding the receiving half
  in `kill_chan : Option<Receiver<bool>>`, two flags `should_exit` and
  `should_print`, and a `buffer : Vec<f32>` relaying input to output.

The per-tick callbacks `update`, `audio_in`, `audio_out`, `key_press` are
embedded below as pure state-transition functions.  Observable effects
(the `println!` of the sample rate, and the consumption of a channel
message) are recorded as an ordered event trace, in the order the Rust
statements execute.
-/

namespace Soundstream

/-- Audio sample values.  The Rust code stores `f32` samples but only ever
copies them (`input.clone()`, `self.buffer.clone()`), never computes with
them, so they are modelled by exact rational values. -/
abbrev Sample := Rat

/-- Modelled from the spec: the asynchronous command channel created by the
std-library `channel()` call in `App::load`; the channel implementation is
not under `src/`.  Per the spec it is an unbounded FIFO queue of boolean
messages, with a `closed` flag that is set once the receiving audio
context has terminated. -/
structure Channel where
  queue : List Bool
  closed : Bool
  deriving DecidableEq

/-- Modelled from the spec: `Sender::send` — enqueues the message, never
blocks the caller, and sending into a closed channel is a silent no-op
failure, not a crash. -/
def send (ch : Channel) (msg : Bool) : Channel :=
  if ch.closed then ch else { ch with queue := ch.queue ++ [msg] }

/-- Modelled from the spec: `Receiver::try_recv` — a non-blocking poll that
returns the oldest queued message together with the remaining channel, or
`none` when the queue is empty. -/
def tryRecv (ch : Channel) : Option Bool × Channel :=
  match ch.queue with
  | [] => (none, ch)
  | m :: rest => (some m, { ch with queue := rest })

/-- The slice of `SoundStreamSettings` read by the embedded code: only the
`frames` field (the negotiated frame count) is used, in `update`. -/
structure SoundStreamSettings where
  frames : Nat
  deriving DecidableEq

/-- The audio-thread struct `AppSoundStream` from the source: the receiving
end of the kill channel, the exit and print flags, and the relay buffer. -/
structure AppSoundStream where
  kill_chan : Option Channel
  should_exit : Bool
  should_print : Bool
  buffer : List Sample
  deriving DecidableEq

/-- Constructor `AppSoundStream::new`: flags start false and the buffer
starts as the empty vector `vec![]`. -/
def AppSoundStream.new (recv : Option Channel) : AppSoundStream :=
  { kill_chan := recv
    should_exit := false
    should_print := false
    buffer := [] }

/-- Observable effects of one `update` tick, listed in execution order:
`rate_emitted dt frames` records the `println!` of the real-time sample
rate computed from elapsed time `dt` and frame count `frames`;
`drained msg` records a message received from `kill_chan`. -/
inductive Event
  | rate_emitted (dt : Nat) (frames : Nat)
  | drained (msg : Bool)
  deriving DecidableEq

/-- The sample-rate figure printed by `update`:
`(1f64 / dtsec) * settings.frames as f64` with `dtsec = dt as f64 / 1e9`,
modelled in exact rational arithmetic. -/
def rate (dt : Nat) (frames : Nat) : Rat :=
  (1 / ((dt : Rat) / 1000000000)) * (frames : Rat)

/-- The `update` callback, straight from the source: first, if
`should_print`, print the rate for this tick; then poll `kill_chan` once
with `try_recv`, and on any received message set `should_exit := true`.
Returns the new state and the ordered trace of this tick's events. -/
def update (s : AppSoundStream) (settings : SoundStreamSettings) (dt : Nat) :
    AppSoundStream × List Event :=
  let printed : List Event :=
    if s.should_print then [Event.rate_emitted dt settings.frames] else []
  match s.kill_chan with
  | some receiver =>
    match tryRecv receiver with
    | (some m, rest) =>
        ({ s with kill_chan := some rest, should_exit := true },
          printed ++ [Event.drained m])
    | (none, rest) =>
        ({ s with kill_chan := some rest }, printed)
  | none => (s, printed)

/-- The `audio_in` callback: store the tick's input frame into the buffer
(`self.buffer = input.clone()`). -/
def audio_in (s : AppSoundStream) (input : List Sample)
    (settings : SoundStreamSettings) : AppSoundStream :=
  { s with buffer := input }

/-- The `audio_out` callback: overwrite the output frame with the buffer
(`*output = self.buffer.clone()`); the previous output contents are
discarded and the state is unchanged. -/
def audio_out (s : AppSoundStream) (output : List Sample)
    (settings : SoundStreamSettings) : List Sample :=
  s.buffer

/-- Keys distinguished by the soundstream `key_press` handler. -/
inductive Key
  | space
  | escape
  | other (code : Nat)
  deriving DecidableEq

/-- The soundstream `key_press` callback: Space flips `should_print`
(via `if self.should_print { false } else { true }`), Escape sets
`should_exit`. -/
def key_press (s : AppSoundStream) (key : Key) : AppSoundStream :=
  let s1 :=
    if key = Key.space then
      { s with should_print := if s.should_print then false else true }
    else s
  if key = Key.escape then { s1 with should_exit := true } else s1

/-- The `exit` callback queried by the driver once per buffer. -/
def AppSoundStream.exit (s : AppSoundStream) : Bool :=
  s.should_exit

/-- The foreground struct `App`: it holds the sending half of the kill
channel, or `none` before `load` ran. -/
structure App where
  kill_chan : Option Channel
  deriving DecidableEq

/-- Constructor `App::new`: no channel yet. -/
def App.new : App :=
  { kill_chan := none }

/-- The `Drop` impl for `App`: if the app holds the sender, send `true`
through the (shared) channel; otherwise do nothing.  Returns the updated
shared channel state as seen by the receiving audio thread. -/
def App.drop (a : App) : Option Channel :=
  match a.kill_chan with
  | some sender => some (send sender true)
  | none => none

/-- One operation on the audio loop, for stating invariants over arbitrary
interleavings of the soundstream callbacks. -/
inductive Op
  | update (settings : SoundStreamSettings) (dt : Nat)
  | key_press (k : Key)
  | audio_in (input : List Sample) (settings : SoundStreamSettings)
  | audio_out (output : List Sample) (settings : SoundStreamSettings)
  | load

/-- Apply one operation to the audio-loop state.  `audio_out` and `load`
do not mutate the state (`load` only prints a banner). -/
def step (op : Op) (s : AppSoundStream) : AppSoundStream :=
  match op with
  | Op.update st dt => (update s st dt).1
  | Op.key_press k => key_press s k
  | Op.audio_in input st => audio_in s input st
  | Op.audio_out _ _ => s
  | Op.load => s

/-- Apply a sequence of operations in order. -/
def runOps (ops : List Op) (s : AppSoundStream) : AppSoundStream :=
  ops.foldl (fun acc op => step op acc) s

/-- Draining never changes the print flag: `update` only ever writes
`kill_chan` and `should_exit`. -/
theorem update_should_print_eq (s : AppSoundStream)
    (st : SoundStreamSettings) (dt : Nat) :
    (update s st dt).1.should_print = s.should_print := by
  rcases s with ⟨kc, se, sp, buf⟩
  rcases kc with _ | ⟨q, c⟩
  · rfl
  · cases q <;> rfl

/-- C1: Loopback identity — for every input frame `I` delivered to a tick
via `audio_in`, the output frame produced by the same tick via `audio_out`
equals `I` exactly, sample for sample, with no transformation. -/
theorem loopback_identity (s : AppSoundStream) (st : SoundStreamSettings)
    (I prev : List Sample) :
    audio_out (audio_in s I st) prev st = I := rfl

/-- Witness for C1 at a concrete frame. -/
theorem loopback_identity_witness :
    audio_out (audio_in (AppSoundStream.new none) [1, 0, -1/2] { frames := 3 })
      [0, 0, 0] { frames := 3 } = [1, 0, -1/2] :=
  loopback_identity (AppSoundStream.new none) { frames := 3 } [1, 0, -1/2] [0, 0, 0]

/-- The audio-loop state after three `update` ticks starting from a fresh
stream whose channel already holds the three messages `m1, m2, m3`. -/
def threeTicks (m1 m2 m3 : Bool) : AppSoundStream :=
  (update (update (update
      (AppSoundStream.new (some { queue := [m1, m2, m3], closed := false }))
      { frames := 512 } 1).1 { frames := 512 } 1).1 { frames := 512 } 1).1

/-- C2 counterexample: the drain is a single `try_recv`, not a poll until
empty — with two messages queued, after one tick one message is still in
the channel, so the tick did not process every enqueued command. -/
theorem drain_completeness_counterexample :
    ((update (AppSoundStream.new (some { queue := [true, true], closed := false }))
          { frames := 512 } 1).1.kill_chan =
        some { queue := [true], closed := false }) ∧
      ((update (AppSoundStream.new (some { queue := [true, true], closed := false }))
          { frames := 512 } 1).1.kill_chan ≠
        some { queue := [], closed := false }) :=
  ⟨rfl, by decide⟩

/-- C2 amended: each tick polls the channel at most once, consuming queued
messages one per tick in FIFO order, and any received message sets
`should_exit`; with three messages queued, after three ticks the stream
has `should_exit = true`, `should_print` still `false`, and an empty
queue. -/
theorem drain_one_per_tick (m1 m2 m3 : Bool) :
    (threeTicks m1 m2 m3).should_exit = true ∧
      (threeTicks m1 m2 m3).should_print = false ∧
      (threeTicks m1 m2 m3).kill_chan = some { queue := [], closed := false } := by
  cases m1 <;> cases m2 <;> cases m3 <;> exact ⟨rfl, rfl, rfl⟩

/-- C3 counterexample: before any input has been captured, `audio_out`
produces the initial empty buffer, not an all-zero frame of the negotiated
frame length (here 4). -/
theorem first_tick_silence_counterexample :
    audio_out (AppSoundStream.new none) [0, 0, 0, 0] { frames := 4 } ≠
      List.replicate 4 (0 : Sample) := by
  decide

/-- C3 amended: if `audio_out` runs before any input was ever captured, the
produced output frame is the empty vector (the buffer is initialised to
`vec![]`), of length 0 rather than the negotiated frame length; it holds
no uninitialised data because it holds no data at all. -/
theorem first_tick_empty_output (recv : Option Channel) (prev : List Sample)
    (st : SoundStreamSettings) :
    audio_out (AppSoundStream.new recv) prev st = [] := rfl

/-- C4 counterexample: with rate printing enabled and `dt = 0`, the tick
still emits the rate diagnostic — there is no zero-duration guard in the
code, so the computation is not skipped. -/
theorem zero_duration_guard_counterexample :
    ((update { AppSoundStream.new none with should_print := true }
          { frames := 256 } 0).2 =
        [Event.rate_emitted 0 256]) ∧
      ((update { AppSoundStream.new none with should_print := true }
          { frames := 256 } 0).2 ≠ []) :=
  ⟨rfl, by decide⟩

/-- C4 amended: the code has no zero-duration guard — whenever rate
printing is enabled, the diagnostic is emitted regardless of the tick's
elapsed time, including `dt = 0` (where the `f64` division yields
infinity), and the tick continues normally. -/
theorem rate_emitted_unconditionally (s : AppSoundStream)
    (st : SoundStreamSettings) (dt : Nat) (h : s.should_print = true) :
    Event.rate_emitted dt st.frames ∈ (update s st dt).2 := by
  rcases s with ⟨kc, se, sp, buf⟩
  cases sp with
  | false => exact Bool.noConfusion h
  | true =>
    rcases kc with _ | ⟨q, c⟩
    · simp [update]
    · cases q <;> simp [update, tryRecv]

/-- Witness for C4 amended at `dt = 0`. -/
theorem rate_emitted_unconditionally_witness :
    (({ AppSoundStream.new none with should_print := true } :
          AppSoundStream).should_print = true) ∧
      Event.rate_emitted 0 256 ∈
        (update { AppSoundStream.new none with should_print := true }
          { frames := 256 } 0).2 :=
  ⟨rfl, rate_emitted_unconditionally
    { AppSoundStream.new none with should_print := true } { frames := 256 } 0 rfl⟩

/-- No callback ever resets the exit flag: each single operation preserves
`should_exit = true`. -/
theorem step_preserves_exit (op : Op) (s : AppSoundStream)
    (h : s.should_exit = true) : (step op s).should_exit = true := by
  cases op with
  | update st dt =>
    rcases s with ⟨kc, se, sp, buf⟩
    rcases kc with _ | ⟨q, c⟩
    · exact h
    · cases q
      · exact h
      · rfl
  | key_press k => cases k <;> simp [step, key_press] <;> exact h
  | audio_in input st => exact h
  | audio_out out st => exact h
  | load => exact h

/-- C5: Monotonic exit flag — for every sequence of operations on the audio
loop, once `should_exit` is true no subsequent operation resets it; in
particular draining a further stop message while already stopping is a
harmless no-op. -/
theorem should_exit_monotonic (ops : List Op) (s : AppSoundStream)
    (h : s.should_exit = true) : (runOps ops s).should_exit = true := by
  induction ops generalizing s with
  | nil => exact h
  | cons op rest ih => exact ih _ (step_preserves_exit op s h)

/-- Witness for C5: a stream that already decided to exit, with one more
stop message queued, keeps `should_exit` after an update tick and a key
press. -/
theorem should_exit_monotonic_witness :
    (({ AppSoundStream.new (some { queue := [true], closed := false }) with
          should_exit := true } : AppSoundStream).should_exit = true) ∧
      (runOps [Op.update { frames := 512 } 1, Op.key_press Key.space]
          { AppSoundStream.new (some { queue := [true], closed := false }) with
            should_exit := true }).should_exit = true :=
  ⟨rfl, should_exit_monotonic
    [Op.update { frames := 512 } 1, Op.key_press Key.space]
    { AppSoundStream.new (some { queue := [true], closed := false }) with
      should_exit := true } rfl⟩

/-- C6: sending into a closed channel is a silent no-op — `send` is a total
function (it cannot crash or block) and leaves a closed channel exactly as
it was. -/
theorem closed_send_noop (ch : Channel) (msg : Bool) (h : ch.closed = true) :
    send ch msg = ch := by
  unfold send
  rw [h]
  rfl

/-- Witness for C6 on a concrete closed channel. -/
theorem closed_send_noop_witness :
    (({ queue := [], closed := true } : Channel).closed = true) ∧
      send { queue := [], closed := true } false =
        { queue := [], closed := true } :=
  ⟨rfl, closed_send_noop { queue := [], closed := true } false rfl⟩

/-- C7: destroy triggers stop — dropping an `App` that holds the sender of
a still-open channel enqueues a message, and the audio context's next
`update` drain observes it and sets `should_exit`. -/
theorem drop_triggers_stop (ch : Channel) (s : AppSoundStream)
    (st : SoundStreamSettings) (dt : Nat) (h : ch.closed = false) :
    (update { s with kill_chan := App.drop { kill_chan := some ch } }
        st dt).1.should_exit = true := by
  rcases ch with ⟨q, c⟩
  cases c with
  | true => exact Bool.noConfusion h
  | false =>
    rcases s with ⟨kc, se, sp, buf⟩
    cases q <;> rfl

/-- Witness for C7: dropping an app holding a fresh open channel makes the
next tick set the exit flag. -/
theorem drop_triggers_stop_witness :
    (({ queue := [], closed := false } : Channel).closed = false) ∧
      (update { AppSoundStream.new none with
            kill_chan := App.drop
              { kill_chan := some { queue := [], closed := false } } }
          { frames := 512 } 1).1.should_exit = true :=
  ⟨rfl, drop_triggers_stop { queue := [], closed := false }
    (AppSoundStream.new none) { frames := 512 } 1 rfl⟩

/-- C8: the printed rate equals `(1e9 / elapsedNanos) * frameCount` (in the
exact rational model of the `f64` computation), and at `frameCount = 256`,
`elapsedNanos = 5333333` the rate is within 0.1 percent of 48000. -/
theorem rate_formula_accuracy :
    (∀ dt frames : Nat,
        rate dt frames = ((1000000000 : Rat) / (dt : Rat)) * (frames : Rat)) ∧
      |rate 5333333 256 - 48000| ≤ (48000 : Rat) / 1000 := by
  constructor
  · intro dt frames
    unfold rate
    rw [one_div_div]
  · unfold rate
    rw [abs_le]
    constructor <;> norm_num

/-- Witness for C8 at the concrete inputs of the claim. -/
theorem rate_formula_accuracy_witness :
    rate 5333333 256 =
      ((1000000000 : Rat) / ((5333333 : Nat) : Rat)) * (((256 : Nat)) : Rat) :=
  rate_formula_accuracy.1 5333333 256

/-- Classifier for trace events that record a drained channel message. -/
def Event.isDrained : Event → Bool
  | Event.drained _ => true
  | _ => false

/-- C9 counterexample: in a tick where both happen, the rate diagnostic is
emitted before the channel message is drained — the trace is
`[rate, drained]`, not `[drained, rate]` as drain-first execution would
produce. -/
theorem rate_before_drain_counterexample :
    ((update { AppSoundStream.new (some { queue := [true], closed := false })
            with should_print := true } { frames := 512 } 1).2 =
        [Event.rate_emitted 1 512, Event.drained true]) ∧
      ((update { AppSoundStream.new (some { queue := [true], closed := false })
            with should_print := true } { frames := 512 } 1).2 ≠
        [Event.drained true, Event.rate_emitted 1 512]) :=
  ⟨rfl, by decide⟩

/-- C9 amended: within a tick the rate diagnostic runs before the drain
(every non-drain event in the trace precedes every drain event); moreover
draining never changes `should_print`, and whether the rate is emitted in
a tick depends only on the pre-tick `should_print`, never on the channel
contents. -/
theorem emission_independent_of_channel (s : AppSoundStream)
    (st : SoundStreamSettings) (dt : Nat) (ch : Channel) :
    ((update s st dt).2 =
        ((update s st dt).2.filter fun e => !e.isDrained) ++
          (update s st dt).2.filter Event.isDrained) ∧
      ((update s st dt).1.should_print = s.should_print) ∧
      (Event.rate_emitted dt st.frames ∈
          (update { s with kill_chan := some ch } st dt).2 ↔
        s.should_print = true) := by
  refine ⟨?_, update_should_print_eq s st dt, ?_⟩
  · rcases s with ⟨kc, se, sp, buf⟩
    rcases kc with _ | ⟨q, c⟩
    · cases sp <;> simp [update, Event.isDrained]
    · cases sp <;> cases q <;> simp [update, tryRecv, Event.isDrained]
  · rcases s with ⟨kc, se, sp, buf⟩
    rcases ch with ⟨q, c⟩
    cases sp <;> cases q <;> simp [update, tryRecv]

/-- C10: command payload is ignored — any queued message, whatever boolean
it carries, makes the tick's drain set `should_exit`, and an update tick
never changes `should_print` (the channel cannot affect it). -/
theorem drained_message_sets_exit (s : AppSoundStream)
    (st : SoundStreamSettings) (dt : Nat) (b c : Bool) (rest : List Bool) :
    ((update { s with
            kill_chan := some { queue := b :: rest, closed := c } }
          st dt).1.should_exit = true) ∧
      ((update s st dt).1.should_print = s.should_print) := by
  refine ⟨?_, update_should_print_eq s st dt⟩
  rcases s with ⟨kc, se, sp, buf⟩
  rfl

end Soundstream
